import Mathlib

/-!
Verification of the philia-thrifts webhook-commerce core.

This file gives a shallow embedding, in Lean 4, of the core operations of the
repository — inventory reservation (`app/services/inventory.py`), the fast-path
idempotency gate (`app/services/idempotency.py`), webhook signature
verification (`app/core/security.py`), the webhook receiver
(`app/api/routes/webhook.py`), the worker pipeline (`app/worker/tasks.py`) and
the outbound messaging client (`app/clients/tiktok.py`) — together with
theorems settling the specification's claims about them.

Modelling conventions:
- Database tables become Lean lists of records; `SELECT ... WHERE sku = ...`
  with a unique index becomes `List.find?` on the sku field.
- Redis becomes an association list of (key, value, expiry-time) triples with
  an explicit `now : Nat` clock; `SET ... NX EX ttl` becomes `redisSetNX`.
- Python `try/except` blocks around a fallible external operation become an
  explicit `err : Bool` parameter selecting the exceptional branch.
- Bytes are `List Nat` (each < 256); machine words in SHA-256 are `Nat`
  reduced modulo 2^32 at each operation.
-/

namespace PhiliaThrifts

/-! ## Data model: `app/db/models.py` -/

/-- `InventoryStatus` enum from `app/db/models.py`. -/
inductive InventoryStatus where
  | AVAILABLE
  | RESERVED
  | SOLD
deriving DecidableEq, Repr

/-- The fields of the `Inventory` row relevant to the core claims
(`sku` unique identifier, `name`, nullable `description`, `status`,
`created_at` as a numeric timestamp). -/
structure Inventory where
  sku : String
  name : String
  description : Option String
  status : InventoryStatus
  created_at : Nat
deriving DecidableEq, Repr

/-- The inventory table: a list of rows.  The schema's unique index on `sku`
is reflected by using `List.find?` for single-row lookups. -/
abbrev InventoryDB := List Inventory

/-! ## Inventory service: `app/services/inventory.py` -/

/-- The row update performed by `reserve_item` once the checks pass: the row
returned by `scalar_one_or_none()` — the first (by the unique index, only)
row whose `sku` matches — has its status set to `RESERVED`. -/
def updateFirst (sku : String) : InventoryDB → InventoryDB
  | [] => []
  | j :: rest =>
    if j.sku == sku then { j with status := InventoryStatus.RESERVED } :: rest
    else j :: updateFirst sku rest

/-- `reserve_item(sku, user_id, session)` from `app/services/inventory.py`
(lines 79–152): `SELECT ... WHERE sku = :sku FOR UPDATE`; missing row →
`False`; status ≠ AVAILABLE → `False`; otherwise set status to RESERVED and
return `True`.  The surrounding `try/except` returns `False` on an unexpected
error, modelled by the `err` flag (the error fires at the locked select,
before any mutation).  `user_id` is used only for logging in the source and
is kept for fidelity.  Returns (result, updated table). -/
def reserve_item (sku : String) (user_id : String) (db : InventoryDB)
    (err : Bool) : Bool × InventoryDB :=
  if err then (false, db)
  else
    match db.find? (fun j => j.sku == sku) with
    | none => (false, db)
    | some item =>
      if item.status ≠ InventoryStatus.AVAILABLE then (false, db)
      else (true, updateFirst sku db)

/-- A race of `reserve_item` calls on the same `sku` by a list of claimants.
The `FOR UPDATE` row lock serializes concurrent callers in lock-acquisition
order, so any concurrent schedule is equivalent to running the calls in some
sequence; the claimant list is that sequence.  Returns the list of results in
order together with the final table. -/
def reserve_race (sku : String) (claimants : List String) (db : InventoryDB) :
    List Bool × InventoryDB :=
  match claimants with
  | [] => ([], db)
  | c :: cs =>
    let r := reserve_item sku c db false
    let rest := reserve_race sku cs r.2
    (r.1 :: rest.1, rest.2)

/-- PostgreSQL `LIKE`/`ILIKE` pattern matching over characters:
`%` matches any sequence, `_` matches any single character, and a backslash
escapes the following character (PostgreSQL's default escape; a pattern
ending in a bare escape character is an error in PostgreSQL and is modelled
as a non-match).  The recursion is fuelled (each step consumes at least one
character of pattern or text, so `p.length + s.length + 1` fuel suffices);
this keeps the function structurally recursive and kernel-evaluable. -/
def likeMatchFuel : Nat → List Char → List Char → Bool
  | 0, _, _ => false
  | _ + 1, [], [] => true
  | _ + 1, [], _ :: _ => false
  | fuel + 1, p0 :: ps, [] =>
    if p0 = '%' then likeMatchFuel fuel ps [] else false
  | fuel + 1, p0 :: ps, c :: s' =>
    if p0 = '%' then
      likeMatchFuel fuel ps (c :: s') || likeMatchFuel fuel (p0 :: ps) s'
    else if p0 = '_' then
      likeMatchFuel fuel ps s'
    else if p0 = '\\' then
      match ps with
      | [] => false
      | q :: ps' => (q == c) && likeMatchFuel fuel ps' s'
    else
      (p0 == c) && likeMatchFuel fuel ps s'

/-- `LIKE` matching of pattern `p` against text `s`. -/
def likeMatch (p s : List Char) : Bool :=
  likeMatchFuel (p.length + s.length + 1) p s

/-- `ILIKE`: case-insensitive `LIKE` — both pattern and target are
lowercased before matching. -/
def ilikeMatch (pat target : String) : Bool :=
  likeMatch (pat.data.map Char.toLower) (target.data.map Char.toLower)

/-- The row filter of `search_available_items`: `name ILIKE '%q%' OR
description ILIKE '%q%'`; a NULL description never matches. -/
def searchRowMatch (query : String) (it : Inventory) : Bool :=
  ilikeMatch ("%" ++ query ++ "%") it.name ||
    (match it.description with
     | some d => ilikeMatch ("%" ++ query ++ "%") d
     | none => false)

/-- `ORDER BY created_at DESC`: newest first. -/
def newestFirst (a b : Inventory) : Prop := b.created_at ≤ a.created_at

instance : DecidableRel newestFirst := fun a b => Nat.decLe b.created_at a.created_at

instance : IsTotal Inventory newestFirst :=
  ⟨fun a b => (Nat.le_total b.created_at a.created_at).elim Or.inl Or.inr⟩

instance : IsTrans Inventory newestFirst :=
  ⟨fun _ _ _ hab hbc => Nat.le_trans hbc hab⟩

/-- `search_available_items(query, session, limit=5)` from
`app/services/inventory.py` (lines 34–76): `SELECT ... WHERE status =
AVAILABLE AND (name ILIKE '%q%' OR description ILIKE '%q%') ORDER BY
created_at DESC LIMIT limit`.  A pure read: the table is not modified. -/
def search_available_items (query : String) (db : InventoryDB)
    (limit : Nat := 5) : List Inventory :=
  (((db.filter (fun it => it.status == InventoryStatus.AVAILABLE
      && searchRowMatch query it)).insertionSort newestFirst).take limit)

/-- Rendering of the spec's words "name or description contains the query
case-insensitively" (spec §4.5 / §8), for comparison with the source's
`ILIKE` semantics: the lowercased query occurs as a contiguous substring of
the lowercased text. -/
def specContainsCI (hay needle : String) : Prop :=
  (needle.data.map Char.toLower) <:+: (hay.data.map Char.toLower)

instance (hay needle : String) : Decidable (specContainsCI hay needle) :=
  List.decidableInfix _ _

/-- A query string free of the `LIKE` metacharacters `%`, `_` and the escape
character `\`. -/
def wildcardFree (s : String) : Prop :=
  ∀ c ∈ s.data, c ≠ '%' ∧ c ≠ '_' ∧ c ≠ '\\'

instance (s : String) : Decidable (wildcardFree s) := by
  unfold wildcardFree; infer_instance

/-! ## Idempotency service: `app/services/idempotency.py` -/

/-- The Redis key space: (key, value, expiry time) triples; an entry is
visible at time `now` only while `now < expiry`. -/
abbrev RedisStore := List (String × String × Nat)

/-- Redis `GET` at time `now`: the live value under a key, if any. -/
def redisGet (st : RedisStore) (now : Nat) (k : String) : Option String :=
  match st.find? (fun e => e.1 == k) with
  | some e => if now < e.2.2 then some e.2.1 else none
  | none => none

/-- Redis `SET key value NX EX ttl` at time `now`: atomically set
`key ↦ value` expiring at `now + ttl` iff the key is currently absent.
Returns whether the set happened, plus the new store. -/
def redisSetNX (st : RedisStore) (now : Nat) (k v : String) (ttl : Nat) :
    Bool × RedisStore :=
  match redisGet st now k with
  | some _ => (false, st)
  | none => (true, (k, v, now + ttl) :: st)

/-- `check_and_set(event_id, ttl=600)` from `app/services/idempotency.py`
(lines 15–78): key `idempotency:<event_id>`, value `processing`, set with
`nx=True, ex=ttl`.  Returns `False` (new, proceed) when the set succeeded,
`True` (duplicate, skip) when the key was already present.  The surrounding
`try/except` fails open: any Redis error (`err`) yields `False` without
raising.  Returns (result, new store). -/
def check_and_set (event_id : String) (ttl : Nat) (now : Nat) (err : Bool)
    (st : RedisStore) : Bool × RedisStore :=
  if err then (false, st)
  else
    let key := "idempotency:" ++ event_id
    let r := redisSetNX st now key "processing" ttl
    if r.1 then (false, r.2) else (true, r.2)

/-- A sequence of `check_and_set` calls with the same `event_id` at the given
times (no Redis errors), threading the store. -/
def check_and_set_seq (event_id : String) (ttl : Nat) (times : List Nat)
    (st : RedisStore) : List Bool × RedisStore :=
  match times with
  | [] => ([], st)
  | t :: ts =>
    let r := check_and_set event_id ttl t false st
    let rest := check_and_set_seq event_id ttl ts r.2
    (r.1 :: rest.1, rest.2)

/-! ## Security: `app/core/security.py`

`verify_tiktok_signature` computes `hmac.new(secret.encode, raw_body,
sha256).hexdigest()` and compares with `hmac.compare_digest`.  SHA-256 and
HMAC are embedded concretely below (FIPS 180-4 / RFC 2104), over bytes as
`List Nat` and 32-bit words as `Nat` reduced mod 2^32. -/

/-- Right rotation of a 32-bit word. -/
def rotr32 (n x : Nat) : Nat := ((x >>> n) ||| (x <<< (32 - n))) % 4294967296

/-- The 64 SHA-256 round constants (FIPS 180-4, written in decimal). -/
def sha256K : List Nat :=
  [1116352408, 1899447441, 3049323471, 3921009573, 961987163,
   1508970993, 2453635748, 2870763221, 3624381080, 310598401,
   607225278, 1426881987, 1925078388, 2162078206, 2614888103,
   3248222580, 3835390401, 4022224774, 264347078, 604807628,
   770255983, 1249150122, 1555081692, 1996064986, 2554220882,
   2821834349, 2952996808, 3210313671, 3336571891, 3584528711,
   113926993, 338241895, 666307205, 773529912, 1294757372,
   1396182291, 1695183700, 1986661051, 2177026350, 2456956037,
   2730485921, 2820302411, 3259730800, 3345764771, 3516065817,
   3600352804, 4094571909, 275423344, 430227734, 506948616,
   659060556, 883997877, 958139571, 1322822218, 1537002063,
   1747873779, 1955562222, 2024104815, 2227730452, 2361852424,
   2428436474, 2756734187, 3204031479, 3329325298]

/-- The SHA-256 initial hash value (FIPS 180-4, written in decimal). -/
def sha256Init : List Nat :=
  [1779033703, 3144134277, 1013904242, 2773480762,
   1359893119, 2600822924, 528734635, 1541459225]

/-- Big-endian bytes → 32-bit words (groups of 4). -/
def bytesToWordsBE : List Nat → List Nat
  | a :: b :: c :: d :: rest =>
    (((a * 256 + b) * 256 + c) * 256 + d) :: bytesToWordsBE rest
  | _ => []

/-- `len` big-endian bytes of `n`. -/
def natToBytesBE (len : Nat) (n : Nat) : List Nat :=
  match len with
  | 0 => []
  | k + 1 => natToBytesBE k (n / 256) ++ [n % 256]

/-- SHA-256 padding: append `0x80`, zeros to 56 mod 64, then the bit length
as 8 big-endian bytes. -/
def sha256Pad (msg : List Nat) : List Nat :=
  let L := msg.length
  let padLen := (64 + 55 - L % 64) % 64
  msg ++ [0x80] ++ List.replicate padLen 0 ++ natToBytesBE 8 (8 * L)

/-- Split into 64-byte chunks. -/
def chunks64 (l : List Nat) : List (List Nat) :=
  if h : l = [] then []
  else l.take 64 :: chunks64 (l.drop 64)
termination_by l.length
decreasing_by
  simp only [List.length_drop]
  have hl : 0 < l.length := List.length_pos.mpr h
  omega

/-- One message-schedule extension step: append
`W[n-16] + σ0(W[n-15]) + W[n-7] + σ1(W[n-2])`. -/
def scheduleStep (w : Array Nat) : Array Nat :=
  let n := w.size
  let x15 := w.getD (n - 15) 0
  let x2 := w.getD (n - 2) 0
  let s0 := (rotr32 7 x15) ^^^ (rotr32 18 x15) ^^^ (x15 >>> 3)
  let s1 := (rotr32 17 x2) ^^^ (rotr32 19 x2) ^^^ (x2 >>> 10)
  w.push ((w.getD (n - 16) 0 + s0 + w.getD (n - 7) 0 + s1) % 4294967296)

/-- Iterate the schedule extension. -/
def scheduleRounds : Nat → Array Nat → Array Nat
  | 0, w => w
  | k + 1, w => scheduleRounds k (scheduleStep w)

/-- Extend 16 words to the 64-word message schedule. -/
def sha256Schedule (ws : List Nat) : List Nat :=
  (scheduleRounds 48 ws.toArray).toList

/-- The eight SHA-256 working registers. -/
structure Sha256State where
  a : Nat
  b : Nat
  c : Nat
  d : Nat
  e : Nat
  f : Nat
  g : Nat
  h : Nat

/-- One SHA-256 compression round, consuming one (word, constant) pair. -/
def sha256Round (st : Sha256State) (kw : Nat × Nat) : Sha256State :=
  let S1 := (rotr32 6 st.e) ^^^ (rotr32 11 st.e) ^^^ (rotr32 25 st.e)
  let ch := (st.e &&& st.f) ^^^ ((st.e ^^^ 4294967295) &&& st.g)
  let temp1 := (st.h + S1 + ch + kw.2 + kw.1) % 4294967296
  let S0 := (rotr32 2 st.a) ^^^ (rotr32 13 st.a) ^^^ (rotr32 22 st.a)
  let maj := (st.a &&& st.b) ^^^ (st.a &&& st.c) ^^^ (st.b &&& st.c)
  let temp2 := (S0 + maj) % 4294967296
  { a := (temp1 + temp2) % 4294967296, b := st.a, c := st.b, d := st.c,
    e := (st.d + temp1) % 4294967296, f := st.e, g := st.f, h := st.g }

/-- Compress one 64-byte chunk into the running hash (8 words). -/
def sha256Compress (hs : List Nat) (chunk : List Nat) : List Nat :=
  let ws := sha256Schedule (bytesToWordsBE chunk)
  let st0 : Sha256State :=
    { a := hs.getD 0 0, b := hs.getD 1 0, c := hs.getD 2 0, d := hs.getD 3 0,
      e := hs.getD 4 0, f := hs.getD 5 0, g := hs.getD 6 0, h := hs.getD 7 0 }
  let fin := (ws.zip sha256K).foldl sha256Round st0
  [(hs.getD 0 0 + fin.a) % 4294967296, (hs.getD 1 0 + fin.b) % 4294967296,
   (hs.getD 2 0 + fin.c) % 4294967296, (hs.getD 3 0 + fin.d) % 4294967296,
   (hs.getD 4 0 + fin.e) % 4294967296, (hs.getD 5 0 + fin.f) % 4294967296,
   (hs.getD 6 0 + fin.g) % 4294967296, (hs.getD 7 0 + fin.h) % 4294967296]

/-- SHA-256 of a byte string, as 32 bytes. -/
def sha256Bytes (msg : List Nat) : List Nat :=
  let hs := (chunks64 (sha256Pad msg)).foldl sha256Compress sha256Init
  hs.foldr (fun w acc => natToBytesBE 4 w ++ acc) []

/-- Lowercase hex digit. -/
def hexChar (n : Nat) : Char :=
  if n < 10 then Char.ofNat (48 + n) else Char.ofNat (87 + n)

/-- `hexdigest()`: bytes → lowercase hex string. -/
def bytesToHex (bs : List Nat) : String :=
  String.mk (bs.foldr (fun b acc => hexChar (b / 16) :: hexChar (b % 16) :: acc) [])

/-- UTF-8 encoding of one character. -/
def utf8EncodeChar (c : Char) : List Nat :=
  let n := c.toNat
  if n < 128 then [n]
  else if n < 2048 then [192 + n / 64, 128 + n % 64]
  else if n < 65536 then [224 + n / 4096, 128 + (n / 64) % 64, 128 + n % 64]
  else [240 + n / 262144, 128 + (n / 4096) % 64, 128 + (n / 64) % 64, 128 + n % 64]

/-- `str.encode('utf-8')`. -/
def utf8Bytes (s : String) : List Nat := (s.data.map utf8EncodeChar).flatten

/-- HMAC-SHA256 (RFC 2104): block size 64; a key longer than one block is
first hashed; `H((K ⊕ opad) ‖ H((K ⊕ ipad) ‖ msg))`. -/
def hmacSha256 (key msg : List Nat) : List Nat :=
  let k0 := if 64 < key.length then sha256Bytes key else key
  let kp := k0 ++ List.replicate (64 - k0.length) 0
  let ipadded := kp.map (fun b => b ^^^ 0x36)
  let opadded := kp.map (fun b => b ^^^ 0x5c)
  sha256Bytes (opadded ++ sha256Bytes (ipadded ++ msg))

/-- `verify_tiktok_signature(client_secret, signature, raw_body)` from
`app/core/security.py` (lines 12–82): `False` on a missing/empty secret,
`False` on a missing/empty signature (the `isinstance(signature, str)` check
is vacuous under this typed embedding), then inside `try`: compare the
hex-encoded HMAC-SHA256 of the raw body against the header with
`hmac.compare_digest` (equality of strings); any error inside the `try`
(modelled by `err`) yields `False`. -/
def verify_tiktok_signature (client_secret : Option String)
    (signature : Option String) (raw_body : List Nat) (err : Bool) : Bool :=
  match client_secret with
  | none => false
  | some cs =>
    if cs = "" then false
    else
      match signature with
      | none => false
      | some sig =>
        if sig = "" then false
        else if err then false
        else bytesToHex (hmacSha256 (utf8Bytes cs) raw_body) == sig

/-! ## Webhook receiver: `app/api/routes/webhook.py` -/

/-- JSON values, for the flexible `data` / `entry` containers of the webhook
payload. -/
inductive JsonVal where
  | jnull
  | jbool (b : Bool)
  | jnum (n : Int)
  | jstr (s : String)
  | jarr (xs : List JsonVal)
  | jobj (fields : List (String × JsonVal))

/-- Dictionary lookup on a JSON object's field list. -/
def jsonLookup (fields : List (String × JsonVal)) (k : String) : Option JsonVal :=
  (fields.find? (fun f => f.1 == k)).map (fun f => f.2)

/-- `TikTokWebhookPayload` from `app/api/routes/webhook.py` (lines 28–47):
optional standard fields plus the flexible `data` (dict) and `entry` (list)
containers.  `data = some []` models an empty dict (present but falsy in
Python), `data = none` models an absent/None field. -/
structure TikTokWebhookPayload where
  event : Option String
  event_id : Option String
  timestamp : Option Int
  data : Option (List (String × JsonVal))
  entry : Option (List JsonVal)

/-- The `sender_id` property (webhook.py lines 49–85): try `data.sender_id`;
else `data.message.from_user_id`; else `entry[0].changes[0].value.sender`;
fall back to `"unknown"`.  Paths through non-dict / non-list intermediate
values raise `KeyError`/`IndexError`/`TypeError` inside the property's
`try/except` (or, for a string `value`, fail the inner membership test) and
net out to the fallback, so only the well-shaped paths return a value. -/
def TikTokWebhookPayload.sender_id (p : TikTokWebhookPayload) : JsonVal :=
  let fromData : Option JsonVal :=
    match p.data with
    | none => none
    | some d =>
      if d.isEmpty then none  -- `if self.data:` — an empty dict is falsy
      else
        match jsonLookup d "sender_id" with
        | some v => some v
        | none =>
          match jsonLookup d "message" with
          | some (JsonVal.jobj mf) => jsonLookup mf "from_user_id"
          | _ => none
  match fromData with
  | some v => v
  | none =>
    let fromEntry : Option JsonVal :=
      match p.entry with
      | none => none
      | some [] => none  -- `if self.entry and len(self.entry) > 0:`
      | some (e0 :: _) =>
        match e0 with
        | JsonVal.jobj ef =>
          match jsonLookup ef "changes" with
          | some (JsonVal.jarr (c0 :: _)) =>
            match c0 with
            | JsonVal.jobj cf =>
              match jsonLookup cf "value" with
              | some (JsonVal.jobj vf) => jsonLookup vf "sender"
              | _ => none
            | _ => none
          | _ => none
        | _ => none
    match fromEntry with
    | some v => v
    | none => JsonVal.jstr "unknown"

/-- The `message_text` property (webhook.py lines 87–115): try
`data.message.{content, text, body}` in order; else
`entry[0].changes[0].value.text`; fall back to `""`. -/
def TikTokWebhookPayload.message_text (p : TikTokWebhookPayload) : JsonVal :=
  let fromData : Option JsonVal :=
    match p.data with
    | none => none
    | some d =>
      if d.isEmpty then none
      else
        match jsonLookup d "message" with
        | some (JsonVal.jobj mf) =>
          match jsonLookup mf "content" with
          | some v => some v
          | none =>
            match jsonLookup mf "text" with
            | some v => some v
            | none => jsonLookup mf "body"
        | _ => none
  match fromData with
  | some v => v
  | none =>
    let fromEntry : Option JsonVal :=
      match p.entry with
      | none => none
      | some [] => none
      | some (e0 :: _) =>
        match e0 with
        | JsonVal.jobj ef =>
          match jsonLookup ef "changes" with
          | some (JsonVal.jarr (c0 :: _)) =>
            match c0 with
            | JsonVal.jobj cf =>
              match jsonLookup cf "value" with
              | some (JsonVal.jobj vf) => jsonLookup vf "text"
              | _ => none
            | _ => none
          | _ => none
        | _ => none
    match fromEntry with
    | some v => v
    | none => JsonVal.jstr ""

/-- Python `str()` of an optional int, as used by
`f"unknown_{payload.timestamp}"`. -/
def pyOptIntStr : Option Int → String
  | none => "None"
  | some n => toString n

/-- Event-id resolution (webhook.py line 222):
`event_id = payload.event_id or f"unknown_{payload.timestamp}"` — a missing
or empty (falsy) `event_id` is replaced by the synthesized key. -/
def resolved_event_id (p : TikTokWebhookPayload) : String :=
  match p.event_id with
  | some e => if e = "" then "unknown_" ++ pyOptIntStr p.timestamp else e
  | none => "unknown_" ++ pyOptIntStr p.timestamp

/-- The settings consulted by the route: `settings.REDIS_URL` truthiness,
`settings.is_local`, `settings.TIKTOK_WEBHOOK_SECRET`. -/
structure Settings where
  redis_configured : Bool
  is_local : Bool
  tiktok_webhook_secret : Option String

/-- The route's possible HTTP outcomes: 503, 401, 400, or the 200 body
`{status: ok, event_id, [duplicate: true]}` (`duplicate` records whether the
duplicate key was present in the response). -/
inductive WebhookResponse where
  | serviceUnavailable
  | invalidSignature
  | invalidPayload
  | ok (event_id : String) (duplicate : Bool)
deriving DecidableEq, Repr

/-- One enqueued Celery task: the arguments of
`process_message.delay(event_id=…, user_id=…, text=…, raw_payload=…)`. -/
structure DispatchedTask where
  event_id : String
  user_id : JsonVal
  text : JsonVal
  raw_payload : String

/-- Shared mutable state touched by the route: the Redis store and the Celery
queue (the list of dispatched tasks, in order). -/
structure WebhookState where
  redis : RedisStore
  dispatched : List DispatchedTask

/-- The POST `/webhook/tiktok` handler (webhook.py lines 165–259).
Inputs: the settings, the `X-TikTok-Signature` header, the raw body bytes,
the parse outcome (`none` = `request.json()`/model validation failed), error
flags for the Redis call and the Celery dispatch, the current time and the
shared state.  Steps: 503 if Redis unconfigured; 401 if not local and the
signature fails; 400 on a parse failure; resolve the event id; fast-path
dedupe via `check_and_set` (fail-open); on duplicate return 200 immediately
without dispatching; otherwise dispatch (a dispatch error is logged and
still answered 200) and return 200. -/
def tiktok_webhook (s : Settings) (x_tiktok_signature : Option String)
    (raw_body : List Nat) (raw_payload_json : String)
    (parsed : Option TikTokWebhookPayload)
    (redisErr dispatchErr : Bool) (now : Nat) (st : WebhookState) :
    WebhookResponse × WebhookState :=
  if ¬ s.redis_configured then (WebhookResponse.serviceUnavailable, st)
  else if ¬ s.is_local ∧
      ¬ verify_tiktok_signature s.tiktok_webhook_secret x_tiktok_signature raw_body false then
    (WebhookResponse.invalidSignature, st)
  else
    match parsed with
    | none => (WebhookResponse.invalidPayload, st)
    | some payload =>
      let event_id := resolved_event_id payload
      let r := check_and_set event_id 600 now redisErr st.redis
      if r.1 then
        (WebhookResponse.ok event_id true, { st with redis := r.2 })
      else
        let st' : WebhookState := { st with redis := r.2 }
        if dispatchErr then (WebhookResponse.ok event_id false, st')
        else
          (WebhookResponse.ok event_id false,
           { st' with dispatched := st'.dispatched ++
              [{ event_id := event_id, user_id := payload.sender_id,
                 text := payload.message_text, raw_payload := raw_payload_json }] })

/-! ## Worker pipeline: `app/worker/tasks.py` and `app/services/users.py` -/

/-- A row of the `users` table. -/
structure UserRec where
  tiktok_id : String
  username : Option String
  last_interaction_at : Nat
  created_at : Nat
deriving DecidableEq, Repr

/-- A row of the permanent `IdempotencyLog` audit table. -/
structure AuditEntry where
  event_id : String
  processed_at : Nat
  status : String
deriving DecidableEq, Repr

/-- The database state seen by the worker: the `users` table, the audit
table, and an opaque component `aiState` for everything the AI/tool-call
step (`AIAgent.handle_conversation` — conversations, inventory writes,
outbound sends) may touch; that step never writes the audit table. -/
structure WorkerDB (α : Type) where
  users : List UserRec
  audit : List AuditEntry
  aiState : α

/-- `get_or_create_user(tiktok_id, username, session)` from
`app/services/users.py` (lines 19–71): fetch by primary key; if found,
refresh `last_interaction_at` to now and update the username when one is
given (truthy) and different; otherwise insert a new row.  Returns the user
and the updated table. -/
def get_or_create_user (tiktok_id : String) (username : Option String)
    (now : Nat) (users : List UserRec) : UserRec × List UserRec :=
  match users.find? (fun u => u.tiktok_id == tiktok_id) with
  | some u =>
    let newName :=
      match username with
      | some un => if un ≠ "" ∧ u.username ≠ some un then some un else u.username
      | none => u.username
    let u' := { u with last_interaction_at := now, username := newName }
    (u', users.map (fun v => if v.tiktok_id == tiktok_id then u' else v))
  | none =>
    let u : UserRec :=
      { tiktok_id := tiktok_id, username := username,
        last_interaction_at := now, created_at := now }
    (u, users ++ [u])

/-- The dictionary returned by the task on success. -/
structure WorkerResult where
  status : String
  event_id : String
  user_id : String
deriving DecidableEq, Repr

/-- `_async_process_message(event_id, user_id, text, raw_payload)` from
`app/worker/tasks.py` (lines 66–142), inside one transaction: (1) upsert the
user — its own `try/except`, a failure (`userErr`) is logged and processing
continues; (2) run the AI agent / send step, modelled as an opaque transform
`aiEffect` of the non-audit state — its own `try/except`, a failure
(`aiErr`) is logged and processing continues; (3) append the
`IdempotencyLog` audit row with status `success` — its own `try/except`
(`auditErr`).  Returns the success dictionary and the final state. -/
def async_process_message {α : Type} (event_id user_id text raw_payload : String)
    (now : Nat) (userErr aiErr auditErr : Bool) (aiEffect : α → α)
    (db : WorkerDB α) : WorkerResult × WorkerDB α :=
  let db1 :=
    if userErr then db
    else { db with users := (get_or_create_user user_id none now db.users).2 }
  let db2 := if aiErr then db1 else { db1 with aiState := aiEffect db1.aiState }
  let db3 :=
    if auditErr then db2
    else { db2 with audit := db2.audit ++
            [{ event_id := event_id, processed_at := now, status := "success" }] }
  ({ status := "success", event_id := event_id, user_id := user_id }, db3)

/-! ## Outbound messaging client: `app/clients/tiktok.py` -/

/-- Outcome of `TikTokClient.send_message`: the parsed response JSON on
success, `none` (a null/no-op result) on a graceful failure, or a raised
`HTTPStatusError` carrying the status (which propagates to the Celery retry
wrapper). -/
inductive SendResult where
  | sent (body : String)
  | noop
  | raised (status : Nat)
deriving DecidableEq, Repr

/-- `TikTokClient.send_message(recipient_id, text)` from
`app/clients/tiktok.py` (lines 27–77), classified over a received HTTP
response with the given status code and body: `raise_for_status` raises for
4xx/5xx; 401/403 → log critical, return `None`; 429 or ≥500 → re-raise
(retryable); any other client error → log, return `None`; a non-error
status returns `response.json()`.  (`recipient_id` and `text` only shape the
outbound request payload.) -/
def send_message (recipient_id text : String) (status : Nat)
    (respBody : String) : SendResult :=
  if status < 400 ∨ 600 ≤ status then SendResult.sent respBody
  else if status = 401 ∨ status = 403 then SendResult.noop
  else if status = 429 ∨ 500 ≤ status then SendResult.raised status
  else SendResult.noop

/-! # Theorems -/

/-! ## Helper lemmas for the inventory reservation subsystem -/

/-- `reserve_item` on a missing row: `false`, table unchanged. -/
theorem reserve_item_none (sku user_id : String) (db : InventoryDB)
    (h : db.find? (fun j => j.sku == sku) = none) :
    reserve_item sku user_id db false = (false, db) := by
  simp [reserve_item, h]

/-- `reserve_item` on a row that is not `AVAILABLE`: `false`, table
unchanged. -/
theorem reserve_item_blocked (sku user_id : String) (db : InventoryDB)
    (item : Inventory)
    (hfind : db.find? (fun j => j.sku == sku) = some item)
    (hst : item.status ≠ InventoryStatus.AVAILABLE) :
    reserve_item sku user_id db false = (false, db) := by
  simp [reserve_item, hfind, hst]

/-- `reserve_item` on an `AVAILABLE` row: `true`, the row becomes
`RESERVED`. -/
theorem reserve_item_available (sku user_id : String) (db : InventoryDB)
    (item : Inventory)
    (hfind : db.find? (fun j => j.sku == sku) = some item)
    (hav : item.status = InventoryStatus.AVAILABLE) :
    reserve_item sku user_id db false = (true, updateFirst sku db) := by
  simp [reserve_item, hfind, hav]

/-- `updateFirst` sets the status of the first matching row to `RESERVED`:
the `find?` lookup on the updated table sees the reserved row. -/
theorem find?_updateFirst (sku : String) (db : InventoryDB) (item : Inventory)
    (hfind : db.find? (fun j => j.sku == sku) = some item) :
    (updateFirst sku db).find? (fun j => j.sku == sku)
      = some { item with status := InventoryStatus.RESERVED } := by
  induction db with
  | nil => simp at hfind
  | cons j rest ih =>
    cases h : j.sku == sku with
    | true =>
      simp only [List.find?, h] at hfind
      injection hfind with hj
      subst hj
      simp [updateFirst, List.find?, h]
    | false =>
      simp only [List.find?, h] at hfind
      simp only [updateFirst, h, Bool.false_eq_true, if_false]
      simp only [List.find?, h]
      exact ih hfind

/-- Row-by-row effect of `updateFirst` when the first matching row is
`AVAILABLE`: every row is either unchanged or an `AVAILABLE` row that became
`RESERVED`. -/
theorem updateFirst_pointwise (sku : String) (db : InventoryDB)
    (item : Inventory)
    (hfind : db.find? (fun j => j.sku == sku) = some item)
    (hav : item.status = InventoryStatus.AVAILABLE) :
    ∀ i : Nat, (updateFirst sku db)[i]? = db[i]? ∨
      ∃ x, db[i]? = some x ∧ x.status = InventoryStatus.AVAILABLE ∧
        (updateFirst sku db)[i]? = some { x with status := InventoryStatus.RESERVED } := by
  induction db with
  | nil => intro i; left; simp [updateFirst]
  | cons j rest ih =>
    intro i
    cases h : j.sku == sku with
    | true =>
      simp only [List.find?, h] at hfind
      injection hfind with hj
      subst hj
      match i with
      | 0 =>
        right
        exact ⟨j, by simp, hav, by simp [updateFirst, h]⟩
      | i + 1 =>
        left
        simp [updateFirst, h]
    | false =>
      simp only [List.find?, h] at hfind
      match i with
      | 0 => left; simp [updateFirst, h]
      | i + 1 =>
        have hstep := ih hfind i
        simpa [updateFirst, h] using hstep

/-- After the winning reservation, the item is no longer `AVAILABLE`, so any
further sequence of `reserve_item` calls on the same `sku` returns all
`false` and leaves the table unchanged. -/
theorem reserve_race_unavailable (sku : String) (cs : List String)
    (db : InventoryDB) (item : Inventory)
    (hfind : db.find? (fun j => j.sku == sku) = some item)
    (hst : item.status ≠ InventoryStatus.AVAILABLE) :
    reserve_race sku cs db = (List.replicate cs.length false, db) := by
  induction cs with
  | nil => rfl
  | cons c cs ih =>
    simp only [reserve_race, reserve_item_blocked sku c db item hfind hst]
    simp [ih, List.replicate_succ]

/-! ## Claim theorems C1, C3 (inventory reservation) -/

/-- Claim C3: a single `reserve_item` call returns `true` iff the looked-up
row exists and is `AVAILABLE`; on a missing row, a non-AVAILABLE status or an
unexpected error it returns `false` with the table unchanged; and row-by-row
the only transition it ever performs is `AVAILABLE → RESERVED`. -/
theorem C3_reserve_item_correct (sku user_id : String) (db : InventoryDB) :
    reserve_item sku user_id db true = (false, db)
  ∧ ((reserve_item sku user_id db false).1 = true ↔
      ∃ item, db.find? (fun j => j.sku == sku) = some item ∧
        item.status = InventoryStatus.AVAILABLE)
  ∧ ((reserve_item sku user_id db false).1 = false →
      (reserve_item sku user_id db false).2 = db)
  ∧ ((reserve_item sku user_id db false).1 = true →
      (reserve_item sku user_id db false).2 = updateFirst sku db)
  ∧ (∀ err : Bool, ∀ i : Nat,
      (reserve_item sku user_id db err).2[i]? = db[i]? ∨
      ∃ x, db[i]? = some x ∧ x.status = InventoryStatus.AVAILABLE ∧
        (reserve_item sku user_id db err).2[i]? =
          some { x with status := InventoryStatus.RESERVED }) := by
  have hsplit : db.find? (fun j => j.sku == sku) = none ∨
      ∃ item, db.find? (fun j => j.sku == sku) = some item := by
    cases db.find? (fun j => j.sku == sku) with
    | none => exact Or.inl rfl
    | some item => exact Or.inr ⟨item, rfl⟩
  refine ⟨rfl, ?_, ?_, ?_, ?_⟩
  · rcases hsplit with hnone | ⟨item, hfind⟩
    · rw [reserve_item_none sku user_id db hnone]
      simp [hnone]
    · by_cases hav : item.status = InventoryStatus.AVAILABLE
      · rw [reserve_item_available sku user_id db item hfind hav]
        simp [hfind, hav]
      · rw [reserve_item_blocked sku user_id db item hfind hav]
        simp [hfind, hav]
  · rcases hsplit with hnone | ⟨item, hfind⟩
    · rw [reserve_item_none sku user_id db hnone]
      intro; rfl
    · by_cases hav : item.status = InventoryStatus.AVAILABLE
      · rw [reserve_item_available sku user_id db item hfind hav]
        simp
      · rw [reserve_item_blocked sku user_id db item hfind hav]
        intro; rfl
  · rcases hsplit with hnone | ⟨item, hfind⟩
    · rw [reserve_item_none sku user_id db hnone]
      simp
    · by_cases hav : item.status = InventoryStatus.AVAILABLE
      · rw [reserve_item_available sku user_id db item hfind hav]
        intro; rfl
      · rw [reserve_item_blocked sku user_id db item hfind hav]
        simp
  · intro err i
    cases err with
    | true => left; rfl
    | false =>
      rcases hsplit with hnone | ⟨item, hfind⟩
      · rw [reserve_item_none sku user_id db hnone]; left; rfl
      · by_cases hav : item.status = InventoryStatus.AVAILABLE
        · rw [reserve_item_available sku user_id db item hfind hav]
          exact updateFirst_pointwise sku db item hfind hav i
        · rw [reserve_item_blocked sku user_id db item hfind hav]; left; rfl

/-- Witness for C3 at a concrete table: the reservation of an `AVAILABLE`
item succeeds and produces the `updateFirst` table. -/
theorem C3_reserve_item_witness :
    ((reserve_item "S1" "u1"
        [{ sku := "S1", name := "tee", description := none,
           status := InventoryStatus.AVAILABLE, created_at := 0 }] false).1 = true) ∧
    ((reserve_item "S1" "u1"
        [{ sku := "S1", name := "tee", description := none,
           status := InventoryStatus.AVAILABLE, created_at := 0 }] false).2 =
      updateFirst "S1"
        [{ sku := "S1", name := "tee", description := none,
           status := InventoryStatus.AVAILABLE, created_at := 0 }]) :=
  ⟨by decide,
   (C3_reserve_item_correct "S1" "u1"
      [{ sku := "S1", name := "tee", description := none,
         status := InventoryStatus.AVAILABLE, created_at := 0 }]).2.2.2.1 (by decide)⟩

/-- Claim C1: with one `AVAILABLE` item under the sku, any serialization of
concurrent `reserve_item` calls (the `FOR UPDATE` row lock serializes them
in lock-acquisition order) yields `true` for exactly the first call and
`false` for all others, and leaves the item `RESERVED`. -/
theorem C1_reserve_race_exactly_one (sku : String) (claimants : List String)
    (db : InventoryDB) (item : Inventory)
    (hfind : db.find? (fun j => j.sku == sku) = some item)
    (hav : item.status = InventoryStatus.AVAILABLE)
    (hne : claimants ≠ [])
    (hdistinct : claimants.Nodup) :
    (reserve_race sku claimants db).1
      = true :: List.replicate (claimants.length - 1) false
  ∧ (reserve_race sku claimants db).1.count true = 1
  ∧ (reserve_race sku claimants db).2.find? (fun j => j.sku == sku)
      = some { item with status := InventoryStatus.RESERVED } := by
  match claimants with
  | [] => exact absurd rfl hne
  | c :: cs =>
    have hfind' := find?_updateFirst sku db item hfind
    have hrest := reserve_race_unavailable sku cs (updateFirst sku db)
      { item with status := InventoryStatus.RESERVED } hfind' (by simp)
    have hrace : reserve_race sku (c :: cs) db
        = (true :: List.replicate cs.length false, updateFirst sku db) := by
      simp only [reserve_race, reserve_item_available sku c db item hfind hav]
      simp [hrest]
    refine ⟨?_, ?_, ?_⟩
    · rw [hrace]; simp
    · rw [hrace]; simp [List.count_replicate]
    · rw [hrace]; exact hfind'

/-- Witness for C1: five distinct claimants race on one `AVAILABLE` item;
the first wins, the other four fail, the item ends `RESERVED`. -/
theorem C1_reserve_race_witness :
    (reserve_race "S1" ["u1", "u2", "u3", "u4", "u5"]
        [{ sku := "S1", name := "tee", description := none,
           status := InventoryStatus.AVAILABLE, created_at := 0 }]).1
      = true :: List.replicate 4 false
  ∧ (reserve_race "S1" ["u1", "u2", "u3", "u4", "u5"]
        [{ sku := "S1", name := "tee", description := none,
           status := InventoryStatus.AVAILABLE, created_at := 0 }]).1.count true = 1
  ∧ (reserve_race "S1" ["u1", "u2", "u3", "u4", "u5"]
        [{ sku := "S1", name := "tee", description := none,
           status := InventoryStatus.AVAILABLE, created_at := 0 }]).2.find?
        (fun j => j.sku == "S1")
      = some { sku := "S1", name := "tee", description := none,
               status := InventoryStatus.RESERVED, created_at := 0 } :=
  C1_reserve_race_exactly_one "S1" ["u1", "u2", "u3", "u4", "u5"]
    [{ sku := "S1", name := "tee", description := none,
       status := InventoryStatus.AVAILABLE, created_at := 0 }]
    { sku := "S1", name := "tee", description := none,
      status := InventoryStatus.AVAILABLE, created_at := 0 }
    (by decide) (by decide) (by decide) (by decide)

/-! ## Helper lemmas for the idempotency gate -/

/-- A key that is bound by no entry reads as absent. -/
theorem redisGet_of_absent (st : RedisStore) (now : Nat) (k : String)
    (h : ∀ e ∈ st, e.1 ≠ k) : redisGet st now k = none := by
  have hf : st.find? (fun e => e.1 == k) = none :=
    List.find?_eq_none.mpr (by intro x hx; simpa using h x hx)
  simp [redisGet, hf]

/-- `check_and_set` on a store where the key is absent: sets the entry with
expiry `now + ttl` and reports the event as new. -/
theorem check_and_set_miss (event_id : String) (ttl t0 : Nat) (st : RedisStore)
    (habsent : ∀ e ∈ st, e.1 ≠ "idempotency:" ++ event_id) :
    check_and_set event_id ttl t0 false st
      = (false, ("idempotency:" ++ event_id, "processing", t0 + ttl) :: st) := by
  simp [check_and_set, redisSetNX,
    redisGet_of_absent st t0 ("idempotency:" ++ event_id) habsent]

/-- `check_and_set` while a live entry for the key sits at the head of the
store: reports a duplicate, store unchanged. -/
theorem check_and_set_hit (event_id : String) (ttl t : Nat) (v : String)
    (exp : Nat) (st : RedisStore) (hw : t < exp) :
    check_and_set event_id ttl t false
        (("idempotency:" ++ event_id, v, exp) :: st)
      = (true, ("idempotency:" ++ event_id, v, exp) :: st) := by
  simp [check_and_set, redisSetNX, redisGet, List.find?, hw]

/-- Once the `idempotency:` key is set with expiry `t0 + ttl`, every further
`check_and_set` before that expiry returns `true` (duplicate) and leaves the
store unchanged. -/
theorem check_and_set_seq_after_set (event_id : String) (ttl t0 : Nat)
    (ts : List Nat) (st : RedisStore)
    (hwindow : ∀ t ∈ ts, t < t0 + ttl) :
    check_and_set_seq event_id ttl ts
        (("idempotency:" ++ event_id, "processing", t0 + ttl) :: st)
      = (List.replicate ts.length true,
         ("idempotency:" ++ event_id, "processing", t0 + ttl) :: st) := by
  induction ts with
  | nil => rfl
  | cons t ts ih =>
    simp only [check_and_set_seq,
      check_and_set_hit event_id ttl t "processing" (t0 + ttl) st
        (hwindow t (by simp))]
    simp [ih (fun x hx => hwindow x (List.mem_cons_of_mem _ hx)),
      List.replicate_succ]

/-! ## Claim theorems C2, C6 (idempotency gate) -/

/-- Claim C2: starting from a store where the event's key is absent, a
sequence of `check_and_set` calls within the TTL window sees `false` (new)
exactly on the first call and `true` (duplicate) on every later call, and
the set-if-absent primitive writes the entry exactly once. -/
theorem C2_check_and_set_exactly_once (event_id : String) (ttl t0 : Nat)
    (ts : List Nat) (st : RedisStore)
    (habsent : ∀ e ∈ st, e.1 ≠ "idempotency:" ++ event_id)
    (hwindow : ∀ t ∈ ts, t < t0 + ttl) :
    (check_and_set_seq event_id ttl (t0 :: ts) st).1
      = false :: List.replicate ts.length true
  ∧ (check_and_set_seq event_id ttl (t0 :: ts) st).2
      = ("idempotency:" ++ event_id, "processing", t0 + ttl) :: st := by
  have hwhole : check_and_set_seq event_id ttl (t0 :: ts) st
      = (false :: List.replicate ts.length true,
         ("idempotency:" ++ event_id, "processing", t0 + ttl) :: st) := by
    simp only [check_and_set_seq, check_and_set_miss event_id ttl t0 st habsent]
    simp [check_and_set_seq_after_set event_id ttl t0 ts st hwindow]
  exact ⟨by rw [hwhole], by rw [hwhole]⟩

/-- Witness for C2: three calls at times 0, 1, 2 with TTL 600 on an empty
store give `[false, true, true]` and the single written entry. -/
theorem C2_check_and_set_witness :
    (check_and_set_seq "evt_1" 600 [0, 1, 2] []).1
      = false :: List.replicate 2 true
  ∧ (check_and_set_seq "evt_1" 600 [0, 1, 2] []).2
      = ("idempotency:" ++ "evt_1", "processing", 0 + 600) :: [] :=
  C2_check_and_set_exactly_once "evt_1" 600 0 [1, 2] []
    (by decide) (by decide)

/-- Claim C6: when the Redis operation fails, `check_and_set` fails open —
it returns `false` (treat the event as new) and leaves the store as it was;
in this embedding the exceptional branch is total, so nothing propagates. -/
theorem C6_check_and_set_fails_open (event_id : String) (ttl now : Nat)
    (st : RedisStore) :
    check_and_set event_id ttl now true st = (false, st) := rfl
/-! ## Claim theorem C8 (worker audit write) -/

/-- Claim C8: whatever the user-upsert step and the AI/send step do — both
error flags range over all values, and the AI step is an arbitrary transform
of the non-audit state — the worker appends the permanent audit record for
the event (assuming the audit write itself does not fail), and the task
reports success. -/
theorem C8_audit_write_is_independent {α : Type}
    (event_id user_id text raw_payload : String) (now : Nat)
    (userErr aiErr : Bool) (aiEffect : α → α) (db : WorkerDB α) :
    (async_process_message event_id user_id text raw_payload now
        userErr aiErr false aiEffect db).2.audit
      = db.audit ++ [{ event_id := event_id, processed_at := now,
                       status := "success" }]
  ∧ (async_process_message event_id user_id text raw_payload now
        userErr aiErr false aiEffect db).1.status = "success" := by
  unfold async_process_message
  cases userErr <;> cases aiErr <;> simp

/-! ## Claim theorem C9 (outbound client classification) -/

/-- Claim C9: over any received HTTP response (status < 600),
`send_message` raises (a retryable `HTTPStatusError`) iff the status is 429
or a 5xx; 401/403 and every other client error return the null/no-op
result; non-error statuses return the response body. -/
theorem C9_send_message_classification (recipient_id text : String)
    (status : Nat) (respBody : String) (hvalid : status < 600) :
    (send_message recipient_id text status respBody = SendResult.raised status
      ↔ (status = 429 ∨ 500 ≤ status))
  ∧ ((status = 401 ∨ status = 403) →
      send_message recipient_id text status respBody = SendResult.noop)
  ∧ (400 ≤ status → status < 500 → status ≠ 429 → status ≠ 401 → status ≠ 403 →
      send_message recipient_id text status respBody = SendResult.noop)
  ∧ (status < 400 →
      send_message recipient_id text status respBody = SendResult.sent respBody) := by
  unfold send_message
  refine ⟨?_, ?_, ?_, ?_⟩
  · split_ifs with h1 h2 h3
    · exact ⟨fun hc => absurd hc (by simp), fun hc => by omega⟩
    · exact ⟨fun hc => absurd hc (by simp), fun hc => by omega⟩
    · exact ⟨fun _ => h3, fun _ => rfl⟩
    · exact ⟨fun hc => absurd hc (by simp), fun hc => absurd hc h3⟩
  · intro h; split_ifs <;> first | rfl | omega
  · intro h1 h2 h3 h4 h5; split_ifs <;> first | rfl | omega
  · intro h; split_ifs <;> first | rfl | omega

/-- Witness for C9 at status 429: the client raises the retryable error. -/
theorem C9_send_message_witness :
    send_message "user_1" "hello" 429 "" = SendResult.raised 429
      ↔ ((429 : Nat) = 429 ∨ 500 ≤ (429 : Nat)) :=
  (C9_send_message_classification "user_1" "hello" 429 "" (by omega)).1

/-! ## Claim theorems C5, C10 (webhook receiver) -/

/-- Claim C5: the same successfully-parsed payload with a present (non-empty)
`event_id`, delivered twice within the TTL window, is dispatched exactly once:
the first delivery answers 200 without the duplicate marker and enqueues one
task, the second answers 200 with the duplicate marker and leaves the queue
untouched. -/
theorem C5_duplicate_delivery_dispatches_once (s : Settings)
    (p : TikTokWebhookPayload) (sig : Option String) (raw : List Nat)
    (rawjson : String) (t0 t1 : Nat) (redis0 : RedisStore)
    (disp0 : List DispatchedTask) (e : String)
    (hcfg : s.redis_configured = true) (hlocal : s.is_local = true)
    (hid : p.event_id = some e) (hne : e ≠ "")
    (habsent : ∀ x ∈ redis0, x.1 ≠ "idempotency:" ++ e)
    (hwindow : t1 < t0 + 600) :
    tiktok_webhook s sig raw rawjson (some p) false false t0 ⟨redis0, disp0⟩
      = (WebhookResponse.ok e false,
         ⟨("idempotency:" ++ e, "processing", t0 + 600) :: redis0,
          disp0 ++ [{ event_id := e, user_id := p.sender_id,
                      text := p.message_text, raw_payload := rawjson }]⟩)
  ∧ tiktok_webhook s sig raw rawjson (some p) false false t1
        (tiktok_webhook s sig raw rawjson (some p) false false t0
          ⟨redis0, disp0⟩).2
      = (WebhookResponse.ok e true,
         ⟨("idempotency:" ++ e, "processing", t0 + 600) :: redis0,
          disp0 ++ [{ event_id := e, user_id := p.sender_id,
                      text := p.message_text, raw_payload := rawjson }]⟩) := by
  have hres : resolved_event_id p = e := by
    simp [resolved_event_id, hid, hne]
  have h1 : tiktok_webhook s sig raw rawjson (some p) false false t0 ⟨redis0, disp0⟩
      = (WebhookResponse.ok e false,
         ⟨("idempotency:" ++ e, "processing", t0 + 600) :: redis0,
          disp0 ++ [{ event_id := e, user_id := p.sender_id,
                      text := p.message_text, raw_payload := rawjson }]⟩) := by
    simp [tiktok_webhook, hcfg, hlocal, hres,
      check_and_set_miss e 600 t0 redis0 habsent]
  refine ⟨h1, ?_⟩
  rw [h1]
  simp [tiktok_webhook, hcfg, hlocal, hres,
    check_and_set_hit e 600 t1 "processing" (t0 + 600) redis0 hwindow]

/-- Witness for C5 at a concrete payload carrying `event_id = "evt_1"`,
delivered at times 0 and 1 against an empty store. -/
theorem C5_duplicate_delivery_witness :
    tiktok_webhook ⟨true, true, none⟩ none [] ""
        (some ⟨none, some "evt_1", none, none, none⟩) false false 0 ⟨[], []⟩
      = (WebhookResponse.ok "evt_1" false,
         ⟨("idempotency:" ++ "evt_1", "processing", 0 + 600) :: [],
          [] ++ [{ event_id := "evt_1",
                   user_id := TikTokWebhookPayload.sender_id
                     ⟨none, some "evt_1", none, none, none⟩,
                   text := TikTokWebhookPayload.message_text
                     ⟨none, some "evt_1", none, none, none⟩,
                   raw_payload := "" }]⟩)
  ∧ tiktok_webhook ⟨true, true, none⟩ none [] ""
        (some ⟨none, some "evt_1", none, none, none⟩) false false 1
        (tiktok_webhook ⟨true, true, none⟩ none [] ""
          (some ⟨none, some "evt_1", none, none, none⟩) false false 0 ⟨[], []⟩).2
      = (WebhookResponse.ok "evt_1" true,
         ⟨("idempotency:" ++ "evt_1", "processing", 0 + 600) :: [],
          [] ++ [{ event_id := "evt_1",
                   user_id := TikTokWebhookPayload.sender_id
                     ⟨none, some "evt_1", none, none, none⟩,
                   text := TikTokWebhookPayload.message_text
                     ⟨none, some "evt_1", none, none, none⟩,
                   raw_payload := "" }]⟩) :=
  C5_duplicate_delivery_dispatches_once ⟨true, true, none⟩
    ⟨none, some "evt_1", none, none, none⟩ none [] "" 0 1 [] [] "evt_1"
    rfl rfl rfl (by decide) (by decide) (by decide)

/-- Claim C10: two successfully-parsed payloads that carry neither an
`event_id` nor a `timestamp` both resolve to the constant dedupe key
`"unknown_None"`; delivered within the TTL window, the second — even a
completely different event — is classified as a duplicate of the first and
is never dispatched. -/
theorem C10_missing_id_events_collide (s : Settings)
    (p1 p2 : TikTokWebhookPayload) (sig : Option String)
    (raw1 raw2 : List Nat) (rawjson1 rawjson2 : String) (t0 t1 : Nat)
    (redis0 : RedisStore) (disp0 : List DispatchedTask)
    (hcfg : s.redis_configured = true) (hlocal : s.is_local = true)
    (h1id : p1.event_id = none) (h1ts : p1.timestamp = none)
    (h2id : p2.event_id = none) (h2ts : p2.timestamp = none)
    (habsent : ∀ x ∈ redis0, x.1 ≠ "idempotency:unknown_None")
    (hwindow : t1 < t0 + 600) :
    resolved_event_id p1 = "unknown_None"
  ∧ resolved_event_id p2 = "unknown_None"
  ∧ tiktok_webhook s sig raw2 rawjson2 (some p2) false false t1
        (tiktok_webhook s sig raw1 rawjson1 (some p1) false false t0
          ⟨redis0, disp0⟩).2
      = (WebhookResponse.ok "unknown_None" true,
         (tiktok_webhook s sig raw1 rawjson1 (some p1) false false t0
           ⟨redis0, disp0⟩).2) := by
  have hres1 : resolved_event_id p1 = "unknown_None" := by
    simp [resolved_event_id, h1id, h1ts, pyOptIntStr]
  have hres2 : resolved_event_id p2 = "unknown_None" := by
    simp [resolved_event_id, h2id, h2ts, pyOptIntStr]
  have habsent' : ∀ x ∈ redis0, x.1 ≠ "idempotency:" ++ "unknown_None" :=
    fun x hx => habsent x hx
  have h1 : tiktok_webhook s sig raw1 rawjson1 (some p1) false false t0 ⟨redis0, disp0⟩
      = (WebhookResponse.ok "unknown_None" false,
         ⟨("idempotency:" ++ "unknown_None", "processing", t0 + 600) :: redis0,
          disp0 ++ [{ event_id := "unknown_None", user_id := p1.sender_id,
                      text := p1.message_text, raw_payload := rawjson1 }]⟩) := by
    simp [tiktok_webhook, hcfg, hlocal, hres1,
      check_and_set_miss "unknown_None" 600 t0 redis0 habsent']
  refine ⟨hres1, hres2, ?_⟩
  rw [h1]
  have hhit : check_and_set "unknown_None" 600 t1 false
      (("idempotency:unknown_None", "processing", t0 + 600) :: redis0)
      = (true, ("idempotency:unknown_None", "processing", t0 + 600) :: redis0) :=
    check_and_set_hit "unknown_None" 600 t1 "processing" (t0 + 600) redis0 hwindow
  simp [tiktok_webhook, hcfg, hlocal, hres2, hhit]

/-- Witness for C10: two different id-less, timestamp-less payloads at times
0 and 1; the second is classified as a duplicate of the first. -/
theorem C10_missing_id_events_witness :
    resolved_event_id ⟨none, none, none, none, none⟩ = "unknown_None"
  ∧ resolved_event_id
      ⟨some "message.received", none, none, some [("k", JsonVal.jnull)], none⟩
      = "unknown_None"
  ∧ tiktok_webhook ⟨true, true, none⟩ none [] ""
        (some ⟨some "message.received", none, none,
               some [("k", JsonVal.jnull)], none⟩) false false 1
        (tiktok_webhook ⟨true, true, none⟩ none [] ""
          (some ⟨none, none, none, none, none⟩) false false 0 ⟨[], []⟩).2
      = (WebhookResponse.ok "unknown_None" true,
         (tiktok_webhook ⟨true, true, none⟩ none [] ""
           (some ⟨none, none, none, none, none⟩) false false 0 ⟨[], []⟩).2) :=
  C10_missing_id_events_collide ⟨true, true, none⟩
    ⟨none, none, none, none, none⟩
    ⟨some "message.received", none, none, some [("k", JsonVal.jnull)], none⟩
    none [] [] "" "" 0 1 [] []
    rfl rfl rfl rfl rfl rfl (by decide) (by decide)

/-! ## Claim theorem C4 (signature verification) -/

/-- Claim C4: `verify_tiktok_signature` is characterized completely: it is
`false` on a missing or empty secret, a missing or empty signature, or an
internal error; otherwise it is `true` iff the header equals the
hex-encoded HMAC-SHA256 of the raw body under the secret.  Consequently any
change to the signature away from the correct digest flips it to `false`,
and any change to the body that changes the digest flips it to `false` (a
body change that left the digest unchanged would be a SHA-256 collision,
outside the reach of a correctness proof). -/
theorem C4_verify_signature_characterized (cs sig : String)
    (body : List Nat) (err : Bool) :
    verify_tiktok_signature none (some sig) body err = false
  ∧ verify_tiktok_signature (some "") (some sig) body err = false
  ∧ verify_tiktok_signature (some cs) none body err = false
  ∧ verify_tiktok_signature (some cs) (some "") body err = false
  ∧ verify_tiktok_signature (some cs) (some sig) body true = false
  ∧ (cs ≠ "" → sig ≠ "" →
      (verify_tiktok_signature (some cs) (some sig) body false = true ↔
        sig = bytesToHex (hmacSha256 (utf8Bytes cs) body)))
  ∧ (∀ sig' : String, sig' ≠ bytesToHex (hmacSha256 (utf8Bytes cs) body) →
      verify_tiktok_signature (some cs) (some sig') body false = false)
  ∧ (∀ body' : List Nat,
      bytesToHex (hmacSha256 (utf8Bytes cs) body')
        ≠ bytesToHex (hmacSha256 (utf8Bytes cs) body) →
      verify_tiktok_signature (some cs) (some sig) body false = true →
      verify_tiktok_signature (some cs) (some sig) body' false = false) := by
  refine ⟨rfl, by simp [verify_tiktok_signature], ?_, ?_, ?_, ?_, ?_, ?_⟩
  · by_cases hcs : cs = "" <;> simp [verify_tiktok_signature, hcs]
  · by_cases hcs : cs = "" <;> simp [verify_tiktok_signature, hcs]
  · by_cases hcs : cs = "" <;> by_cases hsig : sig = "" <;>
      simp [verify_tiktok_signature, hcs, hsig]
  · intro hcs hsig
    have hred : verify_tiktok_signature (some cs) (some sig) body false
        = (bytesToHex (hmacSha256 (utf8Bytes cs) body) == sig) := by
      simp [verify_tiktok_signature, hcs, hsig]
    rw [hred]
    constructor
    · intro h; exact (beq_iff_eq.mp h).symm
    · intro h; exact beq_iff_eq.mpr h.symm
  · intro sig' hne'
    by_cases hcs : cs = ""
    · simp [verify_tiktok_signature, hcs]
    · by_cases hsig' : sig' = ""
      · simp [verify_tiktok_signature, hcs, hsig']
      · have hred : verify_tiktok_signature (some cs) (some sig') body false
            = (bytesToHex (hmacSha256 (utf8Bytes cs) body) == sig') := by
          simp [verify_tiktok_signature, hcs, hsig']
        rw [hred, beq_eq_false_iff_ne]
        exact fun h => hne' h.symm
  · intro body' hdig hver
    have hcs : cs ≠ "" := by
      intro h; rw [h] at hver; simp [verify_tiktok_signature] at hver
    have hsig : sig ≠ "" := by
      intro h; rw [h] at hver
      simp [verify_tiktok_signature, hcs] at hver
    have hred : verify_tiktok_signature (some cs) (some sig) body false
        = (bytesToHex (hmacSha256 (utf8Bytes cs) body) == sig) := by
      simp [verify_tiktok_signature, hcs, hsig]
    rw [hred] at hver
    have hsigeq : sig = bytesToHex (hmacSha256 (utf8Bytes cs) body) :=
      (beq_iff_eq.mp hver).symm
    have hred' : verify_tiktok_signature (some cs) (some sig) body' false
        = (bytesToHex (hmacSha256 (utf8Bytes cs) body') == sig) := by
      simp [verify_tiktok_signature, hcs, hsig]
    rw [hred', beq_eq_false_iff_ne, hsigeq]
    exact hdig

/-- Witness for C4 at a concrete non-empty secret and signature: the
characterizing equivalence holds with both degenerate-input hypotheses
discharged. -/
theorem C4_verify_signature_witness :
    verify_tiktok_signature (some "key") (some "sig") [] false = true ↔
      "sig" = bytesToHex (hmacSha256 (utf8Bytes "key") []) :=
  (C4_verify_signature_characterized "key" "sig" [] false).2.2.2.2.2.1
    (by decide) (by decide)

/-! ## Helper lemmas for `LIKE` pattern matching (claim C7) -/

/-- The fuel argument of `likeMatchFuel` is irrelevant once it exceeds
`p.length + s.length`. -/
theorem likeMatchFuel_irrel (fuel : Nat) :
    ∀ (fuel' : Nat) (p s : List Char),
      p.length + s.length < fuel → p.length + s.length < fuel' →
      likeMatchFuel fuel p s = likeMatchFuel fuel' p s := by
  induction fuel with
  | zero => intro fuel' p s h1 _; omega
  | succ fuel ih =>
    intro fuel' p s h1 h2
    cases fuel' with
    | zero => omega
    | succ f' =>
      cases p with
      | nil => cases s with | nil => rfl | cons c s => rfl
      | cons p0 ps =>
        cases s with
        | nil =>
          simp only [likeMatchFuel]
          by_cases hp : p0 = '%'
          · simp only [if_pos hp]
            exact ih f' ps []
              (by simp only [List.length_cons, List.length_nil] at h1 ⊢; omega)
              (by simp only [List.length_cons, List.length_nil] at h2 ⊢; omega)
          · simp only [if_neg hp]
        | cons c s' =>
          simp only [likeMatchFuel]
          by_cases hp : p0 = '%'
          · simp only [if_pos hp]
            rw [ih f' ps (c :: s')
                (by simp only [List.length_cons] at h1 ⊢; omega)
                (by simp only [List.length_cons] at h2 ⊢; omega),
              ih f' (p0 :: ps) s'
                (by simp only [List.length_cons] at h1 ⊢; omega)
                (by simp only [List.length_cons] at h2 ⊢; omega)]
          · simp only [if_neg hp]
            by_cases hu : p0 = '_'
            · simp only [if_pos hu]
              exact ih f' ps s'
                (by simp only [List.length_cons] at h1 ⊢; omega)
                (by simp only [List.length_cons] at h2 ⊢; omega)
            · simp only [if_neg hu]
              by_cases he : p0 = '\\'
              · simp only [if_pos he]
                cases ps with
                | nil => rfl
                | cons q ps' =>
                  show ((q == c) && likeMatchFuel fuel ps' s')
                      = ((q == c) && likeMatchFuel f' ps' s')
                  rw [ih f' ps' s'
                    (by simp only [List.length_cons] at h1 ⊢; omega)
                    (by simp only [List.length_cons] at h2 ⊢; omega)]
              · simp only [if_neg he]
                rw [ih f' ps s'
                  (by simp only [List.length_cons] at h1 ⊢; omega)
                  (by simp only [List.length_cons] at h2 ⊢; omega)]

/-- Unfolding: the empty pattern matches exactly the empty text. -/
theorem likeMatch_nil (s : List Char) : likeMatch [] s = s.isEmpty := by
  cases s with | nil => rfl | cons c s => rfl

/-- Unfolding: `%` against the empty text defers to the rest of the
pattern. -/
theorem likeMatch_pct_nil (ps : List Char) :
    likeMatch ('%' :: ps) [] = likeMatch ps [] := rfl

/-- Unfolding: `%` against `c :: s` either matches the rest of the pattern
here or keeps consuming text. -/
theorem likeMatch_pct_cons (ps : List Char) (c : Char) (s : List Char) :
    likeMatch ('%' :: ps) (c :: s)
      = (likeMatch ps (c :: s) || likeMatch ('%' :: ps) s) := by
  unfold likeMatch
  rw [show ('%' :: ps).length + (c :: s).length + 1
      = (ps.length + (c :: s).length + 1) + 1 from by
    simp only [List.length_cons]; omega]
  simp only [likeMatchFuel, if_pos rfl]
  rw [likeMatchFuel_irrel (ps.length + (c :: s).length + 1)
    (('%' :: ps).length + s.length + 1) ('%' :: ps) s
    (by simp only [List.length_cons]; omega)
    (by simp only [List.length_cons]; omega)]
  simp

/-- Unfolding: a non-metacharacter at the head of the pattern never matches
the empty text. -/
theorem likeMatch_lit_nil (p0 : Char) (hp : p0 ≠ '%') (ps : List Char) :
    likeMatch (p0 :: ps) [] = false := by
  unfold likeMatch
  simp only [likeMatchFuel]
  rw [if_neg hp]

/-- Unfolding: a non-metacharacter at the head of the pattern must equal the
head of the text. -/
theorem likeMatch_lit_cons (p0 : Char) (hp : p0 ≠ '%') (hu : p0 ≠ '_')
    (he : p0 ≠ '\\') (ps : List Char) (c : Char) (s : List Char) :
    likeMatch (p0 :: ps) (c :: s) = ((p0 == c) && likeMatch ps s) := by
  unfold likeMatch
  rw [show (p0 :: ps).length + (c :: s).length + 1
      = ((ps.length + s.length + 1) + 1) + 1 from by
    simp only [List.length_cons]; omega]
  simp only [likeMatchFuel]
  rw [if_neg hp, if_neg hu, if_neg he,
    likeMatchFuel_irrel ((ps.length + s.length + 1) + 1)
      (ps.length + s.length + 1) ps s (by omega) (by omega)]

/-- A pattern free of metacharacters matches exactly itself. -/
theorem likeMatch_literal (q : List Char)
    (hq : ∀ c ∈ q, c ≠ '%' ∧ c ≠ '_' ∧ c ≠ '\\') :
    ∀ s : List Char, likeMatch q s = true ↔ s = q := by
  induction q with
  | nil =>
    intro s
    rw [likeMatch_nil]
    cases s <;> simp
  | cons p0 ps ih =>
    intro s
    obtain ⟨hp, hu, he⟩ := hq p0 (by simp)
    have hq' : ∀ c ∈ ps, c ≠ '%' ∧ c ≠ '_' ∧ c ≠ '\\' :=
      fun c hc => hq c (List.mem_cons_of_mem _ hc)
    cases s with
    | nil => rw [likeMatch_lit_nil p0 hp ps]; simp
    | cons c s' =>
      rw [likeMatch_lit_cons p0 hp hu he ps c s']
      simp only [Bool.and_eq_true, beq_iff_eq, ih hq' s', List.cons.injEq]
      constructor
      · rintro ⟨h1, h2⟩; exact ⟨h1.symm, h2⟩
      · rintro ⟨h1, h2⟩; exact ⟨h1.symm, h2⟩

/-- A pattern headed by `%` matches `s` iff the rest of the pattern matches
some suffix of `s`. -/
theorem likeMatch_pct_iff (ps : List Char) :
    ∀ s, likeMatch ('%' :: ps) s = true ↔
      ∃ s1 s2, s = s1 ++ s2 ∧ likeMatch ps s2 = true := by
  intro s
  induction s with
  | nil =>
    rw [likeMatch_pct_nil]
    constructor
    · intro h; exact ⟨[], [], rfl, h⟩
    · rintro ⟨s1, s2, heq, h⟩
      obtain ⟨h1, h2⟩ := List.append_eq_nil.mp heq.symm
      subst h2; exact h
  | cons c s' ih =>
    rw [likeMatch_pct_cons]
    simp only [Bool.or_eq_true]
    rw [ih]
    constructor
    · rintro (h | ⟨s1, s2, heq, h⟩)
      · exact ⟨[], c :: s', rfl, h⟩
      · exact ⟨c :: s1, s2, by rw [heq]; rfl, h⟩
    · rintro ⟨s1, s2, heq, h⟩
      cases s1 with
      | nil =>
        left
        simp only [List.nil_append] at heq
        rw [← heq] at h
        exact h
      | cons a s1' =>
        right
        simp only [List.cons_append, List.cons.injEq] at heq
        exact ⟨s1', s2, heq.2, h⟩

/-- A metacharacter-free pattern followed by a single trailing `%` matches
`s` iff it is a prefix of `s`. -/
theorem likeMatch_lit_pct (q : List Char)
    (hq : ∀ c ∈ q, c ≠ '%' ∧ c ≠ '_' ∧ c ≠ '\\') :
    ∀ s, likeMatch (q ++ ['%']) s = true ↔ q <+: s := by
  induction q with
  | nil =>
    intro s
    simp only [List.nil_append]
    rw [likeMatch_pct_iff]
    constructor
    · intro _; exact List.nil_prefix
    · intro _
      refine ⟨s, [], by simp, ?_⟩
      rw [likeMatch_nil]; rfl
  | cons p0 ps ih =>
    intro s
    obtain ⟨hp, hu, he⟩ := hq p0 (by simp)
    have hq' : ∀ c ∈ ps, c ≠ '%' ∧ c ≠ '_' ∧ c ≠ '\\' :=
      fun c hc => hq c (List.mem_cons_of_mem _ hc)
    cases s with
    | nil =>
      rw [List.cons_append, likeMatch_lit_nil p0 hp]
      simp [List.prefix_nil]
    | cons c s' =>
      rw [List.cons_append, likeMatch_lit_cons p0 hp hu he]
      simp [Bool.and_eq_true, beq_iff_eq, ih hq' s', List.cons_prefix_cons]

/-- The pattern `%q%` with metacharacter-free `q` matches `s` iff `q` occurs
as a contiguous substring of `s`. -/
theorem likeMatch_pct_lit_pct (q : List Char)
    (hq : ∀ c ∈ q, c ≠ '%' ∧ c ≠ '_' ∧ c ≠ '\\') (s : List Char) :
    likeMatch ('%' :: (q ++ ['%'])) s = true ↔ q <:+: s := by
  rw [likeMatch_pct_iff]
  constructor
  · rintro ⟨s1, s2, heq, h⟩
    obtain ⟨t, ht⟩ := (likeMatch_lit_pct q hq s2).mp h
    exact ⟨s1, t, by rw [heq, ← ht]; exact List.append_assoc s1 q t⟩
  · rintro ⟨s1, t, ht⟩
    refine ⟨s1, q ++ t, ?_, ?_⟩
    · rw [← ht]; simp [List.append_assoc]
    · exact (likeMatch_lit_pct q hq (q ++ t)).mpr ⟨t, rfl⟩

/-- `Char.ofNat` evaluates to the given code point when it is a valid
scalar value. -/
theorem toNat_ofNat_valid (n : Nat) (h : n.isValidChar) :
    (Char.ofNat n).toNat = n := by
  unfold Char.ofNat
  rw [dif_pos h]
  rfl

/-- `Char.toLower` maps no character onto one of the `LIKE`
metacharacters `%`, `_`, `\` unless it was one already (lowercasing only
produces letters in `a`–`z`). -/
theorem toLower_not_special (c : Char)
    (h : c ≠ '%' ∧ c ≠ '_' ∧ c ≠ '\\') :
    Char.toLower c ≠ '%' ∧ Char.toLower c ≠ '_' ∧ Char.toLower c ≠ '\\' := by
  have hlower : Char.toLower c
      = if c.toNat ≥ 65 ∧ c.toNat ≤ 90 then Char.ofNat (c.toNat + 32) else c :=
    rfl
  rw [hlower]
  by_cases hc : c.toNat ≥ 65 ∧ c.toNat ≤ 90
  · rw [if_pos hc]
    obtain ⟨hlo, hhi⟩ := hc
    have hv : (c.toNat + 32).isValidChar := Or.inl (by omega)
    have ht : (Char.ofNat (c.toNat + 32)).toNat = c.toNat + 32 :=
      toNat_ofNat_valid _ hv
    refine ⟨fun heq => ?_, fun heq => ?_, fun heq => ?_⟩
    · have hcontra := congrArg Char.toNat heq
      rw [ht, show Char.toNat '%' = 37 from rfl] at hcontra
      omega
    · have hcontra := congrArg Char.toNat heq
      rw [ht, show Char.toNat '_' = 95 from rfl] at hcontra
      omega
    · have hcontra := congrArg Char.toNat heq
      rw [ht, show Char.toNat '\\' = 92 from rfl] at hcontra
      omega
  · rw [if_neg hc]
    exact h

/-- The `ILIKE '%q%'` filter of `search_available_items`, for a query free
of `LIKE` metacharacters, is exactly the spec's case-insensitive substring
containment. -/
theorem ilikeMatch_wildcardFree (q : String) (hq : wildcardFree q)
    (s : String) :
    ilikeMatch ("%" ++ q ++ "%") s = true ↔ specContainsCI s q := by
  unfold ilikeMatch specContainsCI
  have hpct : Char.toLower '%' = '%' := by decide
  have hdata : ("%" ++ q ++ "%").data.map Char.toLower
      = '%' :: ((q.data.map Char.toLower) ++ ['%']) := by
    simp [String.data_append, hpct]
  rw [hdata]
  exact likeMatch_pct_lit_pct (q.data.map Char.toLower)
    (fun c hc => by
      obtain ⟨a, ha, haeq⟩ := List.mem_map.mp hc
      rw [← haeq]
      exact toLower_not_special a (hq a ha))
    (s.data.map Char.toLower)

/-- Unpacking the row filter: name match or a present, matching
description. -/
theorem searchRowMatch_iff (query : String) (it : Inventory) :
    searchRowMatch query it = true ↔
      (ilikeMatch ("%" ++ query ++ "%") it.name = true ∨
       ∃ d, it.description = some d ∧
         ilikeMatch ("%" ++ query ++ "%") d = true) := by
  unfold searchRowMatch
  cases hd : it.description with
  | none => simp [hd]
  | some d => simp [hd]

/-! ## Claim theorems C7 (inventory search) -/

/-- Counterexample to claim C7 as stated: the query `"_"` (a `LIKE`
single-character wildcard, not escaped by the code) makes
`search_available_items` return an item whose name `"ab"` and (absent)
description do not contain the substring `"_"`. -/
theorem C7_search_wildcard_counterexample :
    search_available_items "_"
        [{ sku := "SKU1", name := "ab", description := none,
           status := InventoryStatus.AVAILABLE, created_at := 0 }] 5
      = [{ sku := "SKU1", name := "ab", description := none,
           status := InventoryStatus.AVAILABLE, created_at := 0 }]
  ∧ ¬ specContainsCI "ab" "_"
  ∧ ({ sku := "SKU1", name := "ab", description := none,
       status := InventoryStatus.AVAILABLE,
       created_at := 0 } : Inventory).description = none := by
  refine ⟨by decide, by decide, rfl⟩

/-- Claim C7 as amended: `search_available_items` returns only `AVAILABLE`
rows of the table whose name or description matches the `ILIKE '%query%'`
pattern, returns at most `limit` rows (the source defaults `limit` to 5),
orders them newest-first by creation time, and — whenever the query
contains none of the `LIKE` metacharacters `%`, `_`, `\` — the `ILIKE`
filter coincides exactly with the spec's case-insensitive substring
containment.  (The function is a pure read: the table is an input and only
a result list is produced.) -/
theorem C7_search_available_amended (query : String) (db : InventoryDB)
    (limit : Nat) :
    (∀ it ∈ search_available_items query db limit,
        it ∈ db ∧ it.status = InventoryStatus.AVAILABLE ∧
          (ilikeMatch ("%" ++ query ++ "%") it.name = true ∨
           ∃ d, it.description = some d ∧
             ilikeMatch ("%" ++ query ++ "%") d = true))
  ∧ (search_available_items query db limit).length ≤ limit
  ∧ (search_available_items query db limit).Sorted newestFirst
  ∧ (wildcardFree query →
      ∀ s : String, ilikeMatch ("%" ++ query ++ "%") s = true ↔
        specContainsCI s query) := by
  refine ⟨?_, ?_, ?_, fun hq s => ilikeMatch_wildcardFree query hq s⟩
  · intro it hit
    unfold search_available_items at hit
    have hsort := List.take_subset limit _ hit
    have hmem := (List.perm_insertionSort newestFirst _).mem_iff.mp hsort
    have hfilter := List.mem_filter.mp hmem
    have hpred := hfilter.2
    simp only [Bool.and_eq_true, beq_iff_eq] at hpred
    exact ⟨hfilter.1, hpred.1, (searchRowMatch_iff query it).mp hpred.2⟩
  · unfold search_available_items
    rw [List.length_take]
    exact min_le_left _ _
  · unfold search_available_items
    exact List.Pairwise.sublist (List.take_sublist _ _)
      (List.sorted_insertionSort newestFirst _)

/-- Witness for the amended C7: for the metacharacter-free query `"nike"`,
the code's filter agrees with case-insensitive substring containment on a
concrete name. -/
theorem C7_search_available_witness :
    ilikeMatch ("%" ++ "nike" ++ "%") "Vintage Nike Tee" = true ↔
      specContainsCI "Vintage Nike Tee" "nike" :=
  (C7_search_available_amended "nike" [] 5).2.2.2 (by decide) "Vintage Nike Tee"

end PhiliaThrifts

